import Mathlib

/-!
Shallow embedding of the ctOS core: the candle data frame, the concrete
indicators of `ctOS/std/Indicator.py` and `ctOS/kernel/Indicator.py`, the
deduplicating indicator batch, the predicate algebra of
`ctOS/std/Predicate.py` (identical to `ctOS/kernel/Signal.py`), and the
candle cache of `ctOS/std/Candles.py` (identical to `ctos/std/Candles.py`).
The later revision of the indicator module, `ctos/std/Indicator.py`, is
embedded separately in the `CtosStd` namespace because its equality
semantics and output-column naming differ.

Cells of a data frame are `Option ℚ`: `none` stands for a missing value
(NaN) and `some q` for a defined numeric value. Comparisons against `none`
are false, mirroring IEEE comparisons against NaN, which is how pandas
evaluates `close > sma` during the warm-up period.
-/

/-- A cell of a data-frame column: `none` models NaN. -/
abbrev Cell := Option ℚ

/-- One named column of a data frame. -/
abbrev Col := List Cell

/-- A pandas DataFrame, modelled as an association list from column name to
column values. Lookup takes the first binding, as column names are unique in
every frame the program builds. -/
abbrev DataFrame := List (String × Col)

/-- Column lookup, `df[name]`. Returns `none` when the column is absent,
which in the Python source surfaces as a `KeyError`. -/
def getCol : DataFrame → String → Option Col
  | [], _ => none
  | (c, v) :: rest, n => if c = n then some v else getCol rest n

/-- The `DataFrame.assign` operation of pandas: returns a new frame in which
column `n` is bound to `v`, replacing an existing binding in place or
appending a fresh one at the end. The receiving frame is not mutated. -/
def assign : DataFrame → String → Col → DataFrame
  | [], n, v => [(n, v)]
  | (c, w) :: rest, n, v =>
    if c = n then (n, v) :: rest else (c, w) :: assign rest n v

/-- Sum of a list of cells; `none` (NaN) poisons the whole sum, matching the
behaviour of a rolling window that contains a NaN. -/
def optSum : List Cell → Option ℚ
  | [] => some 0
  | none :: _ => none
  | some x :: rest => (optSum rest).map (fun s => x + s)

/-- The pandas `series.rolling(window=w).mean()`: entry `i` is the mean of
entries `i - w + 1 .. i` of the source when at least `w` entries are
available and none of them is NaN, and NaN otherwise. -/
def rollingMean (w : Nat) (xs : Col) : Col :=
  (List.range xs.length).map (fun i =>
    if i + 1 < w then none
    else
      match optSum ((xs.take (i + 1)).drop (i + 1 - w)) with
      | none => none
      | some s => some (s / (w : ℚ)))

/-- One step of the exponentially weighted mean with `adjust=False`: the
first defined value seeds the mean, and a missing value carries the previous
mean forward (the base OHLCV columns the program feeds to `ewm` contain no
missing values, so only the fully defined case is exercised). -/
def ewmStep (a : ℚ) (prev x : Cell) : Cell :=
  match prev, x with
  | none, none => none
  | none, some v => some v
  | some p, none => some p
  | some p, some v => some (a * v + (1 - a) * p)

/-- Worker for `ewmMean`, threading the running mean. -/
def ewmGo (a : ℚ) (prev : Cell) : List Cell → List Cell
  | [] => []
  | x :: rest =>
    let y := ewmStep a prev x
    y :: ewmGo a y rest

/-- The pandas `series.ewm(span=w, adjust=False).mean()` recurrence with
smoothing factor `2 / (span + 1)`. -/
def ewmMean (span : Nat) (xs : Col) : Col :=
  ewmGo (2 / ((span : ℚ) + 1)) none xs

/-- Output column name of `ctOS` `SimpleMovingAverage.__call__`:
the f-string `SMA_{column}_{window}`. -/
def smaName (column : String) (window : Nat) : String :=
  "SMA_" ++ column ++ "_" ++ toString window

/-- Output column name of `ctOS` `ExponentialMovingAverage.__call__`:
the f-string `EMA_{column}_{window}`. -/
def emaName (column : String) (window : Nat) : String :=
  "EMA_" ++ column ++ "_" ++ toString window

/-- The moving-average indicators of `ctOS/std/Indicator.py` (the
`ctOS/kernel/Indicator.py` copies are identical): `SimpleMovingAverage` and
`ExponentialMovingAverage`, each parameterised by source column and window.
`LinearRegressionChannel` is not embedded: its band values involve a square
root of the residual variance, which is not expressible as an executable
rational computation, and no verified property depends on it. -/
inductive Indicator
  | sma (column : String) (window : Nat)
  | ema (column : String) (window : Nat)
deriving DecidableEq

/-- The `__call__` method of the concrete indicator classes: derive the
output column from the source column and `assign` it onto a fresh frame.
Returns `none` when the source column is missing (a `KeyError` in Python). -/
def Indicator.apply : Indicator → DataFrame → Option DataFrame
  | .sma c w, df =>
    (getCol df c).map (fun xs => assign df (smaName c w) (rollingMean w xs))
  | .ema c w, df =>
    (getCol df c).map (fun xs => assign df (emaName c w) (ewmMean w xs))

/-- The output column name an indicator writes. -/
def Indicator.outName : Indicator → String
  | .sma c w => smaName c w
  | .ema c w => emaName c w

/-- Python `==` between ctOS indicator instances. The base class is
`@dataclass(unsafe_hash=True)` with no fields, and every concrete subclass
is `@dataclass(eq=False)`, so subclasses inherit the field-free `__eq__` of
the base class: it compares only the runtime classes and then the empty
field tuples. Two instances of the same concrete class therefore compare
equal regardless of their parameters, and all instances share the one hash
`hash(())`. -/
def Indicator.pyEq : Indicator → Indicator → Bool
  | .sma _ _, .sma _ _ => true
  | .ema _ _, .ema _ _ => true
  | _, _ => false

/-- An `IndicatorBatch` is a Python `set` of indicators; the model keeps the
members as a list without `pyEq`-duplicates, in insertion order. -/
abbrev IndicatorBatch := List Indicator

/-- Adding one element to the member set, as `set.union([x])` does: when an
equal member is already present the existing member is kept and the set is
unchanged, otherwise the element is added. -/
def setInsert (l : IndicatorBatch) (x : Indicator) : IndicatorBatch :=
  if l.any (fun y => Indicator.pyEq y x) then l else l ++ [x]

/-- The `IndicatorBatch.__init__` constructor: `set(indicators)`. -/
def batchOf (xs : List Indicator) : IndicatorBatch :=
  xs.foldl setInsert []

/-- The `__lshift__` operator of `IndicatorBatch`:
`IndicatorBatch(self.indicators.union([other]))`. -/
def extendB (b : IndicatorBatch) (x : Indicator) : IndicatorBatch :=
  setInsert b x

/-- The `__or__` operator of `IndicatorBatch`:
`IndicatorBatch(self.indicators.union(other.indicators))`. -/
def unionB (b1 b2 : IndicatorBatch) : IndicatorBatch :=
  b2.foldl setInsert b1

/-- The `IndicatorBatch.__call__` loop: apply every member in turn,
rebinding the frame. A `KeyError` from any member aborts the whole
application. -/
def applyBatch : IndicatorBatch → DataFrame → Option DataFrame
  | [], df => some df
  | i :: rest, df => (Indicator.apply i df).bind (applyBatch rest)

/-- A `Predicate` of `ctOS/std/Predicate.py` (called `Signal` in
`ctOS/kernel/Signal.py`, with an identical body): an indicator batch paired
with a boolean decision function over the enriched frame. The decision
returns `none` when the Python callable would raise (for example a
`KeyError` on a missing column). -/
structure Predicate where
  batch : IndicatorBatch
  decision : DataFrame → Option Bool

/-- The `Predicate.__init__` constructor: wraps the supplied indicators in
`IndicatorBatch(indicators)`, that is, a deduplicating set. -/
def mkPredicate (inds : List Indicator) (d : DataFrame → Option Bool) : Predicate :=
  ⟨batchOf inds, d⟩

/-- The `Predicate.__call__` method: enrich the frame with the full batch,
then run the decision function on the enriched frame. -/
def Predicate.evaluate (p : Predicate) (df : DataFrame) : Option Bool :=
  (applyBatch p.batch df).bind p.decision

/-- The `__invert__` operator: same indicators, negated decision. -/
def pInvert (p : Predicate) : Predicate :=
  mkPredicate p.batch (fun df => (p.decision df).map (fun b => !b))

/-- The `__and__` operator: the union of both batches, and the
short-circuiting Python `and` of both decisions on the shared frame. -/
def pAnd (p q : Predicate) : Predicate :=
  mkPredicate (unionB p.batch q.batch)
    (fun df => (p.decision df).bind (fun a => if a then q.decision df else some false))

/-- The `__or__` operator: the union of both batches, and the
short-circuiting Python `or` of both decisions on the shared frame. -/
def pOr (p q : Predicate) : Predicate :=
  mkPredicate (unionB p.batch q.batch)
    (fun df => (p.decision df).bind (fun a => if a then some true else q.decision df))

/-- The comparison `last_candle.Close > last_candle[self.SMA]` of pandas:
a comparison involving NaN is false. -/
def qgt : Cell → Cell → Bool
  | some a, some b => decide (b < a)
  | _, _ => false

/-- The decision method of `LastClosePriceIsAboveSMA`: take the last row and
compare its close against its SMA cell. `none` models the `IndexError` on an
empty frame or the `KeyError` on a missing column. -/
def lastAboveDecision (smaCol : String) (df : DataFrame) : Option Bool :=
  (getCol df "Close").bind (fun cs =>
    (getCol df smaCol).bind (fun ss =>
      cs.getLast?.bind (fun c =>
        ss.getLast?.map (fun v => qgt c v))))

/-- The `LastClosePriceIsAboveSMA(window)` constructor: one
`SimpleMovingAverage("Close", window)` dependency and the decision above,
reading the column `SMA_Close_{window}`. -/
def lastCloseAboveSMA (window : Nat) : Predicate :=
  mkPredicate [.sma "Close" window] (lastAboveDecision (smaName "Close" window))

/-- One OHLCV bar, the row type of `Candles` in `ctOS/std/Candles.py`;
timestamps and prices are modelled as rationals. -/
structure Candle where
  openTime : ℚ
  closeTime : ℚ
  openPrice : ℚ
  highPrice : ℚ
  lowPrice : ℚ
  closePrice : ℚ
  volume : ℚ
deriving DecidableEq

/-- The candle series owned by a `CandleCache`, as a row list ordered the
way the backing frame is ordered. -/
abbrev CandleCache := List Candle

/-- The `CandleCache.push` method, exactly as written in both revisions:
`self.candles = pd.concat([self.candles, candle]).iloc[1:]` — the pushed
rows are appended at the end and the first row of the result is dropped. -/
def CandleCache.push (cache : CandleCache) (candle : List Candle) : CandleCache :=
  (cache ++ candle).drop 1

/-- The `CandleCache.view` method: `self.candles.copy(deep=False)`, a
shallow snapshot with the same rows. -/
def CandleCache.view (cache : CandleCache) : List Candle :=
  cache

/-- A sequence of single-candle pushes, oldest first. -/
def CandleCache.pushAll (cache : CandleCache) (xs : List Candle) : CandleCache :=
  xs.foldl (fun c x => CandleCache.push c [x]) cache

namespace CtosStd

/-- The later revision `ctos/std/Indicator.py` of the moving averages: every
concrete class is itself `@dataclass(unsafe_hash=True)` and carries an
explicit output-name field defaulting to a short name such as `SMA`. -/
inductive Indicator
  | sma (column : String) (window : Nat) (name : String)
  | ema (column : String) (window : Nat) (name : String)
deriving DecidableEq

/-- Python `==` in the `ctos/std` revision: the subclass dataclasses
generate their own `__eq__`, comparing the runtime class and all fields
(column, window, name), which is exactly structural equality. -/
def Indicator.pyEq (a b : Indicator) : Bool :=
  decide (a = b)

/-- The `__call__` methods of the revised classes: the derived column is
assigned under the configurable `name` field. -/
def Indicator.apply : Indicator → DataFrame → Option DataFrame
  | .sma c w n, df =>
    (getCol df c).map (fun xs => assign df n (rollingMean w xs))
  | .ema c w n, df =>
    (getCol df c).map (fun xs => assign df n (ewmMean w xs))

/-- Member-set insertion for the `Indicators` wrapper of the revision. -/
def setInsert (l : List Indicator) (x : Indicator) : List Indicator :=
  if l.any (fun y => Indicator.pyEq y x) then l else l ++ [x]

/-- The `Indicators.__init__` constructor: `set(indicators)`. -/
def batchOf (xs : List Indicator) : List Indicator :=
  xs.foldl setInsert []

/-- The `Indicators.__call__` loop of the revision. -/
def applyBatch : List Indicator → DataFrame → Option DataFrame
  | [], df => some df
  | i :: rest, df => (Indicator.apply i df).bind (applyBatch rest)

end CtosStd

theorem getCol_assign (df : DataFrame) (n : String) (v : Col) (m : String) :
    getCol (assign df n v) m = if n = m then some v else getCol df m := by
  induction df with
  | nil =>
    by_cases h : n = m <;> simp [assign, getCol, h]
  | cons hd tl ih =>
    obtain ⟨c, w⟩ := hd
    by_cases hcn : c = n
    · subst hcn
      by_cases hnm : c = m <;> simp [assign, getCol, hnm]
    · by_cases hcm : c = m
      · subst hcm
        have hnc : ¬n = c := fun h => hcn h.symm
        simp [assign, getCol, hcn, hnc]
      · simp [assign, getCol, hcn, hcm, ih]

/-- The first character of a string, used to separate derived column names
from the base OHLCV column names. -/
def headChar (s : String) : Option Char :=
  s.data.head?

theorem headChar_append (s t : String) (c : Char) (cs : List Char)
    (h : s.data = c :: cs) : headChar (s ++ t) = some c := by
  unfold headChar
  rw [String.data_append, h]
  rfl

theorem headChar_smaName (c : String) (w : Nat) :
    headChar (smaName c w) = some 'S' := by
  unfold smaName
  apply headChar_append
  rw [String.data_append, String.data_append]
  rfl

theorem headChar_emaName (c : String) (w : Nat) :
    headChar (emaName c w) = some 'E' := by
  unfold emaName
  apply headChar_append
  rw [String.data_append, String.data_append]
  rfl

theorem ne_of_headChar {a b : String} (h : headChar a ≠ headChar b) : a ≠ b :=
  fun e => h (congrArg headChar e)

/-- The base OHLCV columns of a candle series (the index column `CloseTime`
is not part of the data columns). -/
def baseCols : List String :=
  ["OpenTime", "Open", "High", "Low", "Close", "Volume"]

theorem base_headChar (b : String) (hb : b ∈ baseCols) :
    headChar b ≠ some 'S' ∧ headChar b ≠ some 'E' := by
  fin_cases hb <;> exact ⟨by decide, by decide⟩

theorem outName_not_base (i : Indicator) (b : String) (hb : b ∈ baseCols) :
    Indicator.outName i ≠ b := by
  cases i with
  | sma c w =>
    apply ne_of_headChar
    rw [Indicator.outName, headChar_smaName]
    exact fun e => (base_headChar b hb).1 e.symm
  | ema c w =>
    apply ne_of_headChar
    rw [Indicator.outName, headChar_emaName]
    exact fun e => (base_headChar b hb).2 e.symm

theorem apply_eq_assign (i : Indicator) (df df2 : DataFrame)
    (h : Indicator.apply i df = some df2) :
    ∃ v, df2 = assign df (Indicator.outName i) v := by
  cases i with
  | sma c w =>
    cases hg : getCol df c with
    | none => rw [Indicator.apply, hg] at h; simp at h
    | some xs =>
      rw [Indicator.apply, hg] at h
      simp only [Option.map_some'] at h
      exact ⟨rollingMean w xs, (Option.some.inj h).symm⟩
  | ema c w =>
    cases hg : getCol df c with
    | none => rw [Indicator.apply, hg] at h; simp at h
    | some xs =>
      rw [Indicator.apply, hg] at h
      simp only [Option.map_some'] at h
      exact ⟨ewmMean w xs, (Option.some.inj h).symm⟩

theorem apply_getCol_other (i : Indicator) (df df2 : DataFrame)
    (h : Indicator.apply i df = some df2)
    (n : String) (hn : Indicator.outName i ≠ n) :
    getCol df2 n = getCol df n := by
  obtain ⟨v, rfl⟩ := apply_eq_assign i df df2 h
  rw [getCol_assign, if_neg hn]

theorem applyBatch_getCol_other (b : IndicatorBatch) (df df2 : DataFrame)
    (h : applyBatch b df = some df2)
    (n : String) (hn : ∀ i ∈ b, Indicator.outName i ≠ n) :
    getCol df2 n = getCol df n := by
  induction b generalizing df with
  | nil =>
    rw [applyBatch] at h
    cases h
    rfl
  | cons i rest ih =>
    rw [applyBatch] at h
    cases ha : Indicator.apply i df with
    | none => rw [ha] at h; simp at h
    | some dfm =>
      rw [ha] at h
      simp only [Option.some_bind] at h
      rw [ih dfm h (fun j hj => hn j (List.mem_cons_of_mem i hj)),
        apply_getCol_other i df dfm ha n (hn i (List.mem_cons_self i rest))]

theorem optSum_map_some (l : List ℚ) : optSum (l.map some) = some l.sum := by
  induction l with
  | nil => rfl
  | cons x r ih => simp [optSum, ih]

theorem qgt_none (c : Cell) : qgt c none = false := by
  cases c <;> rfl

theorem pyEq_refl (x : Indicator) : Indicator.pyEq x x = true := by
  cases x <;> rfl

theorem rollingMean_length (w : Nat) (xs : Col) :
    (rollingMean w xs).length = xs.length := by
  simp [rollingMean]

theorem rollingMean_all_none (w : Nat) (xs : Col) (h : xs.length < w) :
    ∀ y ∈ rollingMean w xs, y = none := by
  intro y hy
  rw [rollingMean] at hy
  obtain ⟨i, hi, rfl⟩ := List.mem_map.mp hy
  have hilen : i < xs.length := List.mem_range.mp hi
  rw [if_pos (by omega)]

theorem rollingMean_warmup (w : Nat) (xs : Col) (i : Nat)
    (hi : i < w - 1) (hlen : i < xs.length) :
    (rollingMean w xs)[i]? = some none := by
  rw [rollingMean, List.getElem?_map, List.getElem?_range hlen]
  simp only [Option.map_some']
  rw [if_pos (by omega)]

theorem rollingMean_at_full (w : Nat) (xs : List ℚ) (hw : 1 ≤ w)
    (hlen : w ≤ xs.length) :
    (rollingMean w (xs.map some))[w - 1]? =
      some (some ((xs.take w).sum / (w : ℚ))) := by
  have hlt : w - 1 < (xs.map some).length := by
    rw [List.length_map]; omega
  rw [rollingMean, List.getElem?_map, List.getElem?_range hlt]
  simp only [Option.map_some']
  rw [if_neg (by omega)]
  have h1 : w - 1 + 1 = w := by omega
  rw [h1, Nat.sub_self, List.drop_zero, ← List.map_take, optSum_map_some]

/-- A three-bar sample frame with closes 1, 2, 3. -/
def sampleDF : DataFrame :=
  [("Close", [some (1 : ℚ), some 2, some 3])]

/-- A two-bar sample frame, shorter than an SMA window of three. -/
def sampleDF2 : DataFrame :=
  [("Close", [some (1 : ℚ), some 2])]

/-- Sample candle with close time 4. -/
def candle4 : Candle := ⟨3, 4, 1, 1, 1, 1, 1⟩

/-- Sample candle with close time 5. -/
def candle5 : Candle := ⟨4, 5, 1, 1, 1, 1, 1⟩

/-- A second, distinct candle that repeats close time 5: a duplicate
timestamp, which the cache contract calls out-of-order. -/
def candle5b : Candle := ⟨4, 5, 2, 2, 2, 2, 2⟩

/-- Sample candle with close time 6. -/
def candle6 : Candle := ⟨5, 6, 1, 1, 1, 1, 1⟩

/-- Claim C1: in the ctOS revision, Python equality between two
`SimpleMovingAverage` instances with different windows is `True`, because
the `eq=False` subclasses inherit the field-free `__eq__` of the base
dataclass; the later `ctos/std` revision compares all parameters and
returns `False` on the same pair, which is the behaviour the claim and the
docstrings describe. -/
theorem ctOS_indicator_eq_ignores_parameters :
    Indicator.pyEq (.sma "Close" 3) (.sma "Close" 5) = true ∧
    Indicator.sma "Close" 3 ≠ Indicator.sma "Close" 5 ∧
    CtosStd.Indicator.pyEq (.sma "Close" 3 "SMA") (.sma "Close" 5 "SMA") = false := by
  refine ⟨rfl, by decide, by decide⟩

/-- Claim C6: adding the same indicator to a batch twice does not change the
member count; `extendB` is the value-producing `__lshift__`, so the receiver
batch itself is a value that is never mutated. -/
theorem extend_twice_same_member_count (b : IndicatorBatch) (x : Indicator) :
    (extendB (extendB b x) x).length = (extendB b x).length := by
  by_cases h : (b.any (fun y => Indicator.pyEq y x)) = true
  · unfold extendB setInsert
    rw [if_pos h, if_pos h]
  · unfold extendB setInsert
    rw [if_neg h]
    have h2 : ((b ++ [x]).any (fun y => Indicator.pyEq y x)) = true := by
      rw [List.any_append]
      simp [pyEq_refl]
    rw [if_pos h2]

/-- Claim C10: a one-row push never changes the number of stored rows, and a
push into an empty cache leaves the cache empty, so the pushed candle is
not observable through `view`. -/
theorem push_keeps_length_and_empty_stays_empty (cache : CandleCache) (x : Candle) :
    (CandleCache.push cache [x]).length = cache.length ∧
    CandleCache.view (CandleCache.push [] [x]) = [] := by
  constructor
  · rw [CandleCache.push, List.length_drop, List.length_append]
    simp
  · rfl

/-- Claim C2, counterexample: a candle whose close time equals the current
latest close time is not rejected; the push succeeds and the stale candle is
appended and visible through `view`. -/
theorem push_accepts_stale_candle_cex :
    candle5b.closeTime ≤ candle5.closeTime ∧
    CandleCache.view (CandleCache.push [candle4, candle5] [candle5b]) =
      [candle5, candle5b] := by
  refine ⟨by decide, by decide⟩

/-- Claim C2, amended: `push` performs no close-time validation. Even when
the pushed candle's close time is not strictly greater than the latest close
time, the candle is appended at the end (it becomes the last element) after
the oldest row is dropped, and no error is raised. -/
theorem push_appends_stale_candle (cache : CandleCache) (x last : Candle)
    (hl : cache.getLast? = some last)
    (hx : x.closeTime ≤ last.closeTime) :
    CandleCache.push cache [x] = (CandleCache.view cache).drop 1 ++ [x] ∧
    (CandleCache.push cache [x]).getLast? = some x := by
  cases cache with
  | nil => simp at hl
  | cons a t =>
    constructor
    · rfl
    · rw [CandleCache.push]
      show (t ++ [x]).getLast? = some x
      exact List.getLast?_concat t

/-- Witness for the amended claim C2 at a concrete stale push. -/
theorem push_appends_stale_candle_wit :
    CandleCache.push [candle4, candle5] [candle5b] =
      (CandleCache.view [candle4, candle5]).drop 1 ++ [candle5b] ∧
    (CandleCache.push [candle4, candle5] [candle5b]).getLast? = some candle5b :=
  push_appends_stale_candle [candle4, candle5] candle5b candle5 (by decide) (by decide)

/-- Claim C3, counterexample: a one-row cache does not grow on push, even
though any configured capacity of at least two would let it; the seed row is
evicted although no capacity was exceeded. There is no capacity field in
`CandleCache` at all. -/
theorem push_below_capacity_does_not_grow_cex :
    (CandleCache.push [candle4] [candle5]).length = 1 ∧
    CandleCache.view (CandleCache.push [candle4] [candle5]) = [candle5] := by
  refine ⟨by decide, by decide⟩

theorem pushAll_eq_drop (seed xs : List Candle) :
    CandleCache.pushAll seed xs = (seed ++ xs).drop xs.length := by
  induction xs generalizing seed with
  | nil => simp [CandleCache.pushAll]
  | cons x r ih =>
    show CandleCache.pushAll (CandleCache.push seed [x]) r = _
    rw [ih, CandleCache.push]
    have h1 : (1 : Nat) ≤ (seed ++ [x]).length := by simp
    rw [← List.drop_append_of_le_length h1, List.drop_drop, List.append_assoc,
      List.singleton_append, List.length_cons, Nat.add_comm]

/-- Claim C3, amended: the cache has no configured capacity; every one-row
push drops the oldest row, so the length is pinned to the seed length. After
any sequence of one-row pushes the cache holds exactly the most recent
`seed.length` candles of the combined history, and an ascending close-time
order of the combined history is preserved in the cache. -/
theorem pushAll_keeps_seed_length_and_recency (seed xs : List Candle) :
    CandleCache.pushAll seed xs = (seed ++ xs).drop xs.length ∧
    (CandleCache.pushAll seed xs).length = seed.length ∧
    (List.Pairwise (fun a b => a.closeTime < b.closeTime) (seed ++ xs) →
      List.Pairwise (fun a b => a.closeTime < b.closeTime)
        (CandleCache.pushAll seed xs)) := by
  refine ⟨pushAll_eq_drop seed xs, ?_, ?_⟩
  · rw [pushAll_eq_drop, List.length_drop, List.length_append]
    omega
  · intro h
    rw [pushAll_eq_drop]
    exact List.Pairwise.sublist (List.drop_sublist xs.length (seed ++ xs)) h

/-- Witness for the amended claim C3: pushing two in-order candles through a
two-candle cache keeps length two, retains exactly the two most recent
candles, and preserves ascending close-time order. -/
theorem pushAll_keeps_seed_length_and_recency_wit :
    CandleCache.pushAll [candle4, candle5] [candle5b, candle6] =
      ([candle4, candle5] ++ [candle5b, candle6]).drop 2 ∧
    (CandleCache.pushAll [candle4, candle5] [candle5b, candle6]).length = 2 ∧
    List.Pairwise (fun a b => a.closeTime < b.closeTime)
      (CandleCache.pushAll [candle4, candle5] [candle6]) := by
  have h1 := pushAll_keeps_seed_length_and_recency [candle4, candle5] [candle5b, candle6]
  have h2 := pushAll_keeps_seed_length_and_recency [candle4, candle5] [candle6]
  refine ⟨h1.1, h1.2.1, h2.2.2 ?_⟩
  decide

/-- The frame `sampleDF` enriched by `SimpleMovingAverage("Close", 2)`. -/
def sampleDFsma2 : DataFrame :=
  assign sampleDF (smaName "Close" 2) (rollingMean 2 [some 1, some 2, some 3])

/-- The frame `sampleDF` enriched by a two-member batch: the SMA above and
`ExponentialMovingAverage("Close", 3)`. -/
def sampleDFbatch : DataFrame :=
  assign sampleDFsma2 (emaName "Close" 3) (ewmMean 3 [some 1, some 2, some 3])

/-- Claim C5: applying any embedded indicator, or any batch of them, yields
a frame whose base OHLCV columns are unchanged; the source frame itself is a
value the application never modifies. -/
theorem indicator_and_batch_preserve_base_columns
    (i : Indicator) (b : IndicatorBatch) (df dfi dfb : DataFrame) :
    (Indicator.apply i df = some dfi → ∀ n ∈ baseCols, getCol dfi n = getCol df n) ∧
    (applyBatch b df = some dfb → ∀ n ∈ baseCols, getCol dfb n = getCol df n) := by
  constructor
  · intro h n hn
    exact apply_getCol_other i df dfi h n (outName_not_base i n hn)
  · intro h n hn
    exact applyBatch_getCol_other b df dfb h n (fun j _ => outName_not_base j n hn)

/-- Witness for claim C5 at a concrete frame, indicator and batch. -/
theorem indicator_and_batch_preserve_base_columns_wit :
    getCol sampleDFsma2 "Close" = getCol sampleDF "Close" ∧
    getCol sampleDFbatch "Close" = getCol sampleDF "Close" := by
  have h := indicator_and_batch_preserve_base_columns (.sma "Close" 2)
    [.sma "Close" 2, .ema "Close" 3] sampleDF sampleDFsma2 sampleDFbatch
  exact ⟨h.1 rfl "Close" (by decide), h.2 rfl "Close" (by decide)⟩

/-- Claim C7: the SMA output column has the length of the source column; on
a source shorter than the window every cell is undefined; on a source of at
least the window length the first `w - 1` cells are undefined and cell
`w - 1` is exactly the arithmetic mean of the first `w` source values. -/
theorem sma_warmup_and_first_full_window
    (col : String) (w : Nat) (df df2 : DataFrame) (xs : List ℚ)
    (hw : 1 ≤ w)
    (hcol : getCol df col = some (xs.map some))
    (happ : Indicator.apply (.sma col w) df = some df2) :
    ∃ ys, getCol df2 (smaName col w) = some ys ∧
      ys.length = xs.length ∧
      (xs.length < w → ∀ y ∈ ys, y = none) ∧
      (w ≤ xs.length →
        (∀ i, i < w - 1 → ys[i]? = some none) ∧
        ys[w - 1]? = some (some ((xs.take w).sum / (w : ℚ)))) := by
  rw [Indicator.apply, hcol] at happ
  simp only [Option.map_some'] at happ
  refine ⟨rollingMean w (xs.map some), ?_, ?_, ?_, ?_⟩
  · rw [← Option.some.inj happ, getCol_assign, if_pos rfl]
  · rw [rollingMean_length, List.length_map]
  · intro hlen y hy
    exact rollingMean_all_none w (xs.map some) (by rw [List.length_map]; omega) y hy
  · intro hlen
    constructor
    · intro i hi
      exact rollingMean_warmup w (xs.map some) i hi (by rw [List.length_map]; omega)
    · exact rollingMean_at_full w xs hw hlen

/-- Witness for claim C7 on the three-bar frame with window two. -/
theorem sma_warmup_and_first_full_window_wit :
    ∃ ys, getCol sampleDFsma2 (smaName "Close" 2) = some ys ∧
      ys.length = ([1, 2, 3] : List ℚ).length ∧
      (([1, 2, 3] : List ℚ).length < 2 → ∀ y ∈ ys, y = none) ∧
      (2 ≤ ([1, 2, 3] : List ℚ).length →
        (∀ i, i < 2 - 1 → ys[i]? = some none) ∧
        ys[2 - 1]? = some (some ((([1, 2, 3] : List ℚ).take 2).sum / ((2 : Nat) : ℚ)))) :=
  sma_warmup_and_first_full_window "Close" 2 sampleDF sampleDFsma2 [1, 2, 3]
    (by decide) rfl rfl

/-- Claim C8: on a non-empty series whose most recent SMA cell is undefined
(warm-up), `LastClosePriceIsAboveSMA` evaluates to the defined boolean
`false`: the NaN comparison is false, and no error is raised. -/
theorem lastCloseAboveSMA_warmup_false
    (w : Nat) (df : DataFrame) (cs : Col)
    (hc : getCol df "Close" = some cs)
    (hne : cs ≠ [])
    (hlast : (rollingMean w cs).getLast? = some none) :
    Predicate.evaluate (lastCloseAboveSMA w) df = some false := by
  have hnm : smaName "Close" w ≠ "Close" := by
    apply ne_of_headChar
    rw [headChar_smaName]
    decide
  show (applyBatch [Indicator.sma "Close" w] df).bind
      (lastAboveDecision (smaName "Close" w)) = some false
  rw [applyBatch, Indicator.apply, hc]
  simp only [Option.map_some', Option.some_bind]
  rw [applyBatch]
  simp only [Option.some_bind]
  unfold lastAboveDecision
  rw [getCol_assign, if_neg hnm, hc, getCol_assign, if_pos rfl]
  simp only [Option.some_bind]
  rw [List.getLast?_eq_getLast cs hne, hlast]
  simp only [Option.some_bind, Option.map_some']
  rw [qgt_none]

/-- Witness for claim C8: a two-bar frame under a window of three. -/
theorem lastCloseAboveSMA_warmup_false_wit :
    Predicate.evaluate (lastCloseAboveSMA 3) sampleDF2 = some false :=
  lastCloseAboveSMA_warmup_false 3 sampleDF2 [some 1, some 2] rfl
    (List.cons_ne_nil _ _) rfl

/-- A descending three-bar frame with closes 3, 2, 1. -/
def sampleDFdesc : DataFrame :=
  [("Close", [some (3 : ℚ), some 2, some 1])]

theorem lastAboveDecision_eval (smaCol : String) (df : DataFrame) (cs ss : Col)
    (hc : getCol df "Close" = some cs) (hs : getCol df smaCol = some ss) :
    lastAboveDecision smaCol df =
      cs.getLast?.bind (fun c => ss.getLast?.map (fun v => qgt c v)) := by
  unfold lastAboveDecision
  rw [hc, hs]
  simp only [Option.some_bind]

theorem rm2_123 : rollingMean 2 [some 1, some 2, some 3] =
    [none, some ((3 : ℚ) / 2), some ((5 : ℚ) / 2)] := by
  show [none, some (((1 : ℚ) + (2 + 0)) / ((2 : Nat) : ℚ)),
    some (((2 : ℚ) + (3 + 0)) / ((2 : Nat) : ℚ))] = _
  norm_num

theorem rm3_123 : rollingMean 3 [some 1, some 2, some 3] =
    [none, none, some ((2 : ℚ))] := by
  show [none, none, some (((1 : ℚ) + (2 + (3 + 0))) / ((3 : Nat) : ℚ))] = _
  norm_num

theorem rm2_321 : rollingMean 2 [some 3, some 2, some 1] =
    [none, some ((5 : ℚ) / 2), some ((3 : ℚ) / 2)] := by
  show [none, some (((3 : ℚ) + (2 + 0)) / ((2 : Nat) : ℚ)),
    some (((2 : ℚ) + (1 + 0)) / ((2 : Nat) : ℚ))] = _
  norm_num

theorem rm3_321 : rollingMean 3 [some 3, some 2, some 1] =
    [none, none, some ((2 : ℚ))] := by
  show [none, none, some (((3 : ℚ) + (2 + (1 + 0))) / ((3 : Nat) : ℚ))] = _
  norm_num

/-- The ascending sample frame enriched by `SMA_Close_2`, as the batch of
`LastClosePriceIsAboveSMA(2)` produces it. -/
def sampleDFe2 : DataFrame :=
  assign sampleDF (smaName "Close" 2) (rollingMean 2 [some 1, some 2, some 3])

/-- The descending sample frame enriched by `SMA_Close_2`. -/
def sampleDFe2d : DataFrame :=
  assign sampleDFdesc (smaName "Close" 2) (rollingMean 2 [some 3, some 2, some 1])

theorem eval_p2_123 :
    Predicate.evaluate (lastCloseAboveSMA 2) sampleDF = some true := by
  show lastAboveDecision (smaName "Close" 2) sampleDFe2 = some true
  rw [lastAboveDecision_eval (smaName "Close" 2) sampleDFe2 [some 1, some 2, some 3]
    (rollingMean 2 [some 1, some 2, some 3]) rfl rfl, rm2_123]
  show some (qgt (some 3) (some ((5 : ℚ) / 2))) = some true
  rw [qgt, decide_eq_true (show (5 : ℚ) / 2 < 3 by norm_num)]

/-- The ascending sample frame enriched by `SMA_Close_3`. -/
def sampleDFe3 : DataFrame :=
  assign sampleDF (smaName "Close" 3) (rollingMean 3 [some 1, some 2, some 3])

/-- The descending sample frame enriched by `SMA_Close_3`. -/
def sampleDFe3d : DataFrame :=
  assign sampleDFdesc (smaName "Close" 3) (rollingMean 3 [some 3, some 2, some 1])

theorem eval_p3_123 :
    Predicate.evaluate (lastCloseAboveSMA 3) sampleDF = some true := by
  show lastAboveDecision (smaName "Close" 3) sampleDFe3 = some true
  rw [lastAboveDecision_eval (smaName "Close" 3) sampleDFe3 [some 1, some 2, some 3]
    (rollingMean 3 [some 1, some 2, some 3]) rfl rfl, rm3_123]
  show some (qgt (some 3) (some ((2 : ℚ)))) = some true
  rw [qgt, decide_eq_true (show (2 : ℚ) < 3 by norm_num)]

theorem eval_p2_321 :
    Predicate.evaluate (lastCloseAboveSMA 2) sampleDFdesc = some false := by
  show lastAboveDecision (smaName "Close" 2) sampleDFe2d = some false
  rw [lastAboveDecision_eval (smaName "Close" 2) sampleDFe2d [some 3, some 2, some 1]
    (rollingMean 2 [some 3, some 2, some 1]) rfl rfl, rm2_321]
  show some (qgt (some 1) (some ((3 : ℚ) / 2))) = some false
  rw [qgt, decide_eq_false (show ¬((3 : ℚ) / 2 < 1) by norm_num)]

theorem eval_p3_321 :
    Predicate.evaluate (lastCloseAboveSMA 3) sampleDFdesc = some false := by
  show lastAboveDecision (smaName "Close" 3) sampleDFe3d = some false
  rw [lastAboveDecision_eval (smaName "Close" 3) sampleDFe3d [some 3, some 2, some 1]
    (rollingMean 3 [some 3, some 2, some 1]) rfl rfl, rm3_321]
  show some (qgt (some 1) (some ((2 : ℚ)))) = some false
  rw [qgt, decide_eq_false (show ¬((2 : ℚ) < 1) by norm_num)]

theorem eval_pAnd_123 :
    Predicate.evaluate (pAnd (lastCloseAboveSMA 2) (lastCloseAboveSMA 3)) sampleDF = none := by
  show (lastAboveDecision (smaName "Close" 2) sampleDFe2).bind
    (fun a => if a then lastAboveDecision (smaName "Close" 3) sampleDFe2
      else some false) = none
  have h2 : lastAboveDecision (smaName "Close" 2) sampleDFe2 = some true := eval_p2_123
  rw [h2]
  simp only [Option.some_bind, if_true]
  rfl

theorem eval_pOr_321 :
    Predicate.evaluate (pOr (lastCloseAboveSMA 2) (lastCloseAboveSMA 3)) sampleDFdesc = none := by
  show (lastAboveDecision (smaName "Close" 2) sampleDFe2d).bind
    (fun a => if a then some true
      else lastAboveDecision (smaName "Close" 3) sampleDFe2d) = none
  have h2 : lastAboveDecision (smaName "Close" 2) sampleDFe2d = some false := eval_p2_321
  rw [h2]
  simp only [Option.some_bind, Bool.false_eq_true, if_false]
  rfl

/-- Claim C4, evaluated at a failing input: the two reference predicates
built over windows two and three each evaluate to a defined boolean on their
own, but their conjunction evaluates to an error (modelled `none`, a
`KeyError` in Python) on the very frame where both operands are true, and
their disjunction errors on the frame where both operands are false — in
each case because the unioned batch, deduplicated with the parameter-blind
inherited equality, has collapsed the two distinct SMA indicators into the
single member `SimpleMovingAverage("Close", 2)`, so the column
`SMA_Close_3` the second decision reads is never produced. -/
theorem predicate_algebra_fails_at_failing_input :
    Predicate.evaluate (lastCloseAboveSMA 2) sampleDF = some true ∧
    Predicate.evaluate (lastCloseAboveSMA 3) sampleDF = some true ∧
    Predicate.evaluate (pAnd (lastCloseAboveSMA 2) (lastCloseAboveSMA 3)) sampleDF = none ∧
    Predicate.evaluate (lastCloseAboveSMA 2) sampleDFdesc = some false ∧
    Predicate.evaluate (lastCloseAboveSMA 3) sampleDFdesc = some false ∧
    Predicate.evaluate (pOr (lastCloseAboveSMA 2) (lastCloseAboveSMA 3)) sampleDFdesc = none ∧
    (pAnd (lastCloseAboveSMA 2) (lastCloseAboveSMA 3)).batch = [Indicator.sma "Close" 2] :=
  ⟨eval_p2_123, eval_p3_123, eval_pAnd_123, eval_p2_321, eval_p3_321, eval_pOr_321, rfl⟩

theorem ctosPyEq_of_ne {a b : CtosStd.Indicator} (h : a ≠ b) :
    CtosStd.Indicator.pyEq a b = false := by
  unfold CtosStd.Indicator.pyEq
  exact decide_eq_false h

/-- Claim C9: in the `ctos/std` revision, two distinct `SimpleMovingAverage`
instances that share the default output name `SMA` survive deduplication
(their equality compares all parameters), and applying the batch raises no
error: each enrichment assigns over the same column name, so the resulting
frame carries exactly the values of the member applied last in the iteration
order. -/
theorem ctos_name_collision_last_writer_wins
    (c1 c2 : String) (w1 w2 : Nat) (df : DataFrame) (xs1 xs2 : Col)
    (hne : CtosStd.Indicator.sma c1 w1 "SMA" ≠ CtosStd.Indicator.sma c2 w2 "SMA")
    (h1 : getCol df c1 = some xs1)
    (h2 : getCol df c2 = some xs2)
    (hc2 : c2 ≠ "SMA") :
    ∃ df2,
      CtosStd.applyBatch
        (CtosStd.batchOf
          [CtosStd.Indicator.sma c1 w1 "SMA", CtosStd.Indicator.sma c2 w2 "SMA"]) df =
        some df2 ∧
      getCol df2 "SMA" = some (rollingMean w2 xs2) := by
  have hb : CtosStd.batchOf
      [CtosStd.Indicator.sma c1 w1 "SMA", CtosStd.Indicator.sma c2 w2 "SMA"] =
      [CtosStd.Indicator.sma c1 w1 "SMA", CtosStd.Indicator.sma c2 w2 "SMA"] := by
    show CtosStd.setInsert (CtosStd.setInsert [] (CtosStd.Indicator.sma c1 w1 "SMA"))
      (CtosStd.Indicator.sma c2 w2 "SMA") = _
    have h0 : CtosStd.setInsert [] (CtosStd.Indicator.sma c1 w1 "SMA") =
        [CtosStd.Indicator.sma c1 w1 "SMA"] := rfl
    rw [h0, CtosStd.setInsert]
    simp [ctosPyEq_of_ne hne]
  rw [hb]
  refine ⟨assign (assign df "SMA" (rollingMean w1 xs1)) "SMA" (rollingMean w2 xs2), ?_, ?_⟩
  · rw [CtosStd.applyBatch, CtosStd.Indicator.apply, h1]
    simp only [Option.map_some', Option.some_bind]
    rw [CtosStd.applyBatch, CtosStd.Indicator.apply]
    have hg : getCol (assign df "SMA" (rollingMean w1 xs1)) c2 = some xs2 := by
      rw [getCol_assign, if_neg (fun e => hc2 e.symm), h2]
    rw [hg]
    simp only [Option.map_some', Option.some_bind]
    rw [CtosStd.applyBatch]
  · rw [getCol_assign, if_pos rfl]

/-- The sample frame extended with an `Open` column, for the collision
witness. -/
def sampleDFOC : DataFrame :=
  [("Close", [some (1 : ℚ), some 2, some 3]),
   ("Open", [some (2 : ℚ), some 3, some 4])]

/-- Witness for claim C9: colliding default-named SMAs over `Close` and
`Open`; the batch applies without error and the `SMA` column holds the
values of the `Open`-window indicator, which is applied last. -/
theorem ctos_name_collision_last_writer_wins_wit :
    ∃ df2,
      CtosStd.applyBatch
        (CtosStd.batchOf
          [CtosStd.Indicator.sma "Close" 2 "SMA", CtosStd.Indicator.sma "Open" 2 "SMA"])
        sampleDFOC = some df2 ∧
      getCol df2 "SMA" = some (rollingMean 2 [some (2 : ℚ), some 3, some 4]) :=
  ctos_name_collision_last_writer_wins "Close" "Open" 2 2 sampleDFOC
    [some (1 : ℚ), some 2, some 3] [some (2 : ℚ), some 3, some 4]
    (by decide) rfl rfl (by decide)
